import Mathlib

/-!
# Verification of the authentication & authorization core of a video-sharing backend

This file is a shallow embedding, in Lean 4, of the core of a TypeScript/Express/
Mongoose backend (account, video and comment resources; JWT cookie authentication).

The document store is modelled as a keyed map `String → Option doc` (MongoDB ids
are unique).  `findByIdAndUpdate` is a pointwise update that is a no-op when the
id is absent (no upsert), `findByIdAndDelete` removes the binding, `$addToSet`
appends to a list when the element is absent, `$pull` filters the element out.
Express handlers either write a response themselves (`Outcome.respond`) or
forward an error object to the terminal error middleware (`Outcome.forward`),
which turns it into one HTTP response (`customErrorHandler`).
-/

/-- An application error, as passed to `next(err)`.  `CustomError` instances
carry a `status`; library errors (e.g. the `jsonwebtoken` errors) carry only a
`name` and `message` and no `status` field.  `code` models the numeric
`err.code` used to detect MongoDB duplicate-key errors. -/
structure JsError where
  name : String
  message : String
  status : Option Nat
  code : Option Int
  deriving Repr, DecidableEq

/-- Constructor `new CustomError(message, status)` from `src/utils/error/custom_error.ts`. -/
def CustomError (message : String) (status : Nat) : JsError :=
  { name := "CustomError", message := message, status := some status, code := none }

/-- The observable part of an HTTP response: status code plus the
`{success, message}` JSON body. -/
structure HttpResponse where
  status : Nat
  success : Bool
  message : String
  deriving Repr, DecidableEq

/-- What a handler does with a request: write a response directly, or forward an
error to the terminal error middleware via `next(err)`. -/
inductive Outcome where
  | respond (status : Nat) (success : Bool) (message : String)
  | forward (err : JsError)
  deriving Repr, DecidableEq

/-- JavaScript `x || y` on the optional `status` field: `undefined` and `0` are
falsy, any other number is returned unchanged. -/
def statusOr (st : Option Nat) (fallback : Nat) : Nat :=
  match st with
  | none => fallback
  | some s => if s = 0 then fallback else s

/-- Middleware `customErrorHandler` from `src/middlewares/error/error_handler.ts`: rewrites
`SyntaxError`, `ValidationError` and duplicate-key errors to 400 `CustomError`s,
then emits a single response with status `customError.status || 500` and body
`{success: false, message: customError.message}`. -/
def customErrorHandler (err : JsError) : HttpResponse :=
  let customError :=
    if err.name = "SyntaxError" then
      CustomError "Unexpected Syntax" 400
    else if err.name = "ValidationError" then
      CustomError err.message 400
    else if err.code = some 11000 then
      CustomError "Duplicate Key Found: Check Your Input" 400
    else err
  { status := statusOr customError.status 500
    success := false
    message := customError.message }

/-- The response the client finally sees: a direct response is emitted as-is, a
forwarded error goes through `customErrorHandler`. -/
def finalResponse : Outcome → HttpResponse
  | .respond status success message => ⟨status, success, message⟩
  | .forward err => customErrorHandler err

/-- Is the handler's outcome an error response written by the handler itself
(rather than forwarded to the terminal responder)? -/
def directErrorResponse : Outcome → Bool
  | .respond _ success _ => !success
  | .forward _ => false

/- ## The account data model (src/schemes/account/account_schema.ts) -/

/-- An account document.  `subscribers` and `subscribedUsers` are the two
subscription edge lists mutated by the relationship endpoints (`subscribed_to`
in the specification is the `subscribedUsers` field). -/
structure Account where
  id : String
  first_name : String
  last_name : String
  username : String
  email : String
  password : String
  role : String
  profile_image : String
  blocked : Bool
  is_email_verified : Bool
  subscribers : List String
  subscribedUsers : List String
  deriving Repr, DecidableEq

/-- The account collection: MongoDB ids are unique, so the store is a keyed map. -/
def Store : Type := String → Option Account

/-- Mongoose `Model.findById(id)`. -/
def findById (db : Store) (id : String) : Option Account := db id

/-- Mongoose `Model.findByIdAndUpdate(id, update)`: applies the update to the matching
document; a no-op when the id is absent (no upsert). -/
def findByIdAndUpdate (db : Store) (id : String) (f : Account → Account) : Store :=
  fun x => if x = id then (db x).map f else db x

/-- Mongoose `Model.findByIdAndDelete(id)`. -/
def findByIdAndDelete (db : Store) (id : String) : Store :=
  fun x => if x = id then none else db x

/-- MongoDB `$addToSet`: append the element unless already present. -/
def addToSet (x : String) (l : List String) : List String :=
  if x ∈ l then l else l ++ [x]

/-- MongoDB `$pull`: remove every occurrence of the element. -/
def pull (x : String) (l : List String) : List String :=
  l.filter (fun y => decide (y ≠ x))

/-- Update `$addToSet: \x7b subscribedUsers: b \x7d`. -/
def addSubscribedUser (b : String) (a : Account) : Account :=
  { a with subscribedUsers := addToSet b a.subscribedUsers }

/-- Update `$addToSet: \x7b subscribers: b \x7d`. -/
def addSubscriber (b : String) (a : Account) : Account :=
  { a with subscribers := addToSet b a.subscribers }

/-- Update `$pull: \x7b subscribedUsers: b \x7d`. -/
def pullSubscribedUser (b : String) (a : Account) : Account :=
  { a with subscribedUsers := pull b a.subscribedUsers }

/-- Update `$pull: \x7b subscribers: b \x7d`. -/
def pullSubscriber (b : String) (a : Account) : Account :=
  { a with subscribers := pull b a.subscribers }

/- ## Account controllers (src/controllers/account/account_controllers.ts) -/

/-- Handler `subscribeAccount`: unless the actor targets itself, add `subscribeAccountId`
to the actor's `subscribedUsers` and the actor to the target's `subscribers`
(two independent `findByIdAndUpdate` calls, no existence check), then respond
200; on self-subscription forward a 400 `CustomError`. -/
def subscribeAccount (authAccountId subscribeAccountId : String) (db : Store) :
    Store × Outcome :=
  if authAccountId ≠ subscribeAccountId then
    let db1 := findByIdAndUpdate db authAccountId (addSubscribedUser subscribeAccountId)
    let db2 := findByIdAndUpdate db1 subscribeAccountId (addSubscriber authAccountId)
    (db2, .respond 200 true ("You have been subscribed to " ++ subscribeAccountId ++ "."))
  else
    (db, .forward (CustomError "You cannot subscribe to yourself." 400))

/-- Handler `unsubscribeAccount`: unless the actor targets itself, `$pull` the target
from the actor's `subscribedUsers` and the actor from the target's
`subscribers`, then respond 200; on self-unsubscription forward a 400
`CustomError`. -/
def unsubscribeAccount (authAccountId unsubscribeAccountId : String) (db : Store) :
    Store × Outcome :=
  if authAccountId ≠ unsubscribeAccountId then
    let db1 := findByIdAndUpdate db authAccountId (pullSubscribedUser unsubscribeAccountId)
    let db2 := findByIdAndUpdate db1 unsubscribeAccountId (pullSubscriber authAccountId)
    (db2, .respond 200 true ("You have been unsubscribed from " ++ unsubscribeAccountId ++ "."))
  else
    (db, .forward (CustomError "You cannot unsubscribe to yourself." 400))

/-- Handler `deleteSingleAccount`: a missing (empty, hence falsy) id forwards a 400; a
mismatch between the authenticated id and the target forwards a 500; otherwise
the account document is deleted (nothing else is cleaned up) and a 200 is
returned. -/
def deleteSingleAccount (authAccountId deleteAccountId : String) (db : Store) :
    Store × Outcome :=
  if deleteAccountId = "" then
    (db, .forward (CustomError "Please provide a channel id." 400))
  else if authAccountId ≠ deleteAccountId then
    (db, .forward (CustomError "You cannot delete this channel." 500))
  else
    (findByIdAndDelete db deleteAccountId,
     .respond 200 true "Your channel has been deleted successfully.")

/-- The request body of the account update endpoint: `$set: req.body` with the
schema's writable fields (Mongoose strict mode drops paths not in the schema;
every schema field is settable). `none` means the field is absent from the
body. -/
structure AccountUpdateBody where
  first_name : Option String
  last_name : Option String
  username : Option String
  email : Option String
  password : Option String
  role : Option String
  profile_image : Option String
  blocked : Option Bool
  is_email_verified : Option Bool
  deriving Repr, DecidableEq

/-- Update `$set: req.body` applied to an account document: each supplied field
overwrites the stored one verbatim, absent fields are kept. -/
def applyAccountSet (b : AccountUpdateBody) (a : Account) : Account :=
  { a with
    first_name := b.first_name.getD a.first_name
    last_name := b.last_name.getD a.last_name
    username := b.username.getD a.username
    email := b.email.getD a.email
    password := b.password.getD a.password
    role := b.role.getD a.role
    profile_image := b.profile_image.getD a.profile_image
    blocked := b.blocked.getD a.blocked
    is_email_verified := b.is_email_verified.getD a.is_email_verified }

/-- Handler `updateAccountInformations`: a missing (empty, hence falsy) id forwards a
400; an actor/target mismatch forwards a **500** `CustomError`; otherwise the
whole request body is `$set` onto the document and a 200 is returned. -/
def updateAccountInformations (authAccountId updateAccountId : String)
    (body : AccountUpdateBody) (db : Store) : Store × Outcome :=
  if updateAccountId = "" then
    (db, .forward (CustomError "Please provide an account id." 400))
  else if authAccountId ≠ updateAccountId then
    (db, .forward (CustomError "You cannot update this channel" 500))
  else
    (findByIdAndUpdate db updateAccountId (applyAccountSet body), .respond 200 true "")

/- ## Subscription-edge membership and the symmetry invariant -/

/-- Membership `b ∈ (account a).subscribedUsers` read off the store; `false` when the
account does not exist. -/
def inSubscribedTo (db : Store) (a b : String) : Bool :=
  match db a with
  | some acc => decide (b ∈ acc.subscribedUsers)
  | none => false

/-- Membership `a ∈ (account b).subscribers` read off the store; `false` when the account
does not exist. -/
def inSubscribers (db : Store) (b a : String) : Bool :=
  match db b with
  | some acc => decide (a ∈ acc.subscribers)
  | none => false

/-- The specification's symmetry invariant:
`B ∈ A.subscribed_to ⟺ A ∈ B.subscribers` for every pair of ids. -/
def symmetricStore (db : Store) : Prop :=
  ∀ a b : String, inSubscribedTo db a b = inSubscribers db b a

/- ## Video data model and controllers (src/controllers/video/video_controllers.ts) -/

/-- A hexadecimal digit, as accepted by `mongoose.Types.ObjectId.isValid` for
24-character strings. -/
def isHexChar (c : Char) : Bool :=
  (('0' ≤ c ∧ c ≤ '9') ∨ ('a' ≤ c ∧ c ≤ 'f') ∨ ('A' ≤ c ∧ c ≤ 'F') : Prop)

/-- Validator `mongoose.Types.ObjectId.isValid`: any 12-character string, or a
24-character hexadecimal string. -/
def isValidObjectId (s : String) : Bool :=
  s.length = 12 || (s.length = 24 && s.data.all isHexChar)

/-- A video document (src/schemes/video/video_schema.ts); `account_id` is the
owner, immutable through the in-scope endpoints. -/
structure Video where
  id : String
  account_id : String
  title : String
  description : String
  img_url : String
  video_url : String
  views : Nat
  tags : List String
  likes : List String
  dislikes : List String
  comments_closed : Bool
  deriving Repr, DecidableEq

/-- The video collection. -/
def VideoStore : Type := String → Option Video

/-- The request body of the video update endpoint (`$set: req.body`, schema
fields only under Mongoose strict mode). -/
structure VideoUpdateBody where
  title : Option String
  description : Option String
  img_url : Option String
  video_url : Option String
  views : Option Nat
  tags : Option (List String)
  likes : Option (List String)
  dislikes : Option (List String)
  comments_closed : Option Bool
  deriving Repr, DecidableEq

/-- Update `$set: req.body` applied to a video document. -/
def applyVideoSet (b : VideoUpdateBody) (v : Video) : Video :=
  { v with
    title := b.title.getD v.title
    description := b.description.getD v.description
    img_url := b.img_url.getD v.img_url
    video_url := b.video_url.getD v.video_url
    views := b.views.getD v.views
    tags := b.tags.getD v.tags
    likes := b.likes.getD v.likes
    dislikes := b.dislikes.getD v.dislikes
    comments_closed := b.comments_closed.getD v.comments_closed }

/-- Handler `updateSingleVideo`: empty id → forward 400; invalid ObjectId → forward
400; missing video → forward 404 (checked before ownership); actor ≠ owner →
forward 400 and leave the store untouched; owner → `$set` the body, respond
200. -/
def updateSingleVideo (authAccountId videoId : String) (body : VideoUpdateBody)
    (db : VideoStore) : VideoStore × Outcome :=
  if videoId = "" then
    (db, .forward (CustomError "Please provide a video id." 400))
  else if ¬ isValidObjectId videoId then
    (db, .forward (CustomError "Please provide a verified id." 400))
  else
    match db videoId with
    | none => (db, .forward (CustomError "The video you are looking for could not be found." 404))
    | some video =>
      if authAccountId = video.account_id then
        ((fun x => if x = videoId then (db x).map (applyVideoSet body) else db x),
         .respond 200 true "")
      else
        (db, .forward (CustomError "You can update only your account" 400))

/-- Handler `deleteSingleVideo`: empty id → forward 400; invalid ObjectId → forward
400; missing video → forward 404 (checked before ownership); actor ≠ owner →
forward 400 and leave the store untouched; owner → delete, respond 200. -/
def deleteSingleVideo (authAccountId videoId : String) (db : VideoStore) :
    VideoStore × Outcome :=
  if videoId = "" then
    (db, .forward (CustomError "Please provide a video id." 400))
  else if ¬ isValidObjectId videoId then
    (db, .forward (CustomError "Please provide a verified id." 400))
  else
    match db videoId with
    | none => (db, .forward (CustomError "The video you are looking for could not be found." 404))
    | some video =>
      if authAccountId = video.account_id then
        ((fun x => if x = videoId then none else db x),
         .respond 200 true "Your video has been deleted.")
      else
        (db, .forward (CustomError "You can delete only your video" 400))

/- ## Comment data model and controller (src/controllers/comment/comment_controllers.ts) -/

/-- A comment document (src/schemes/comment/comment_schema.ts). -/
structure Comment where
  id : String
  account_id : String
  video_id : String
  description : String
  edited : Bool
  deriving Repr, DecidableEq

/-- The comment collection. -/
def CommentStore : Type := String → Option Comment

/-- Handler `deleteComment`: empty id → forward 400; invalid ObjectId → forward 400;
missing comment → **directly** respond `200 {success: true, message: "Comment
couldn't be find."}` (not a forwarded not-found error); owner → delete, respond
200; actor ≠ owner → **directly** respond `400 {success: false}` (not
forwarded to the error middleware). -/
def deleteComment (authAccountId commentId : String) (db : CommentStore) :
    CommentStore × Outcome :=
  if commentId = "" then
    (db, .forward (CustomError "Please provide a comment id." 400))
  else if ¬ isValidObjectId commentId then
    (db, .forward (CustomError "Please provide a verified comment id." 400))
  else
    match db commentId with
    | none => (db, .respond 200 true "Comment couldn't be find.")
    | some comment =>
      if comment.account_id = authAccountId then
        ((fun x => if x = commentId then none else db x),
         .respond 200 true "Your comment has been deleted.")
      else
        (db, .respond 400 false "You cannot delete this comment.")

/- ## Session token codec (src/lib/jwt/jwt_lib.ts) and access guard
     (src/middlewares/access/access.ts) -/

/-- The identity claim embedded in a session token (the JWT payload built by
`JWTLib._sendToken`). -/
structure TokenClaim where
  id : String
  first_name : String
  deriving Repr, DecidableEq

/-- A signed token: payload plus `iat`/`exp` (seconds) and the key used by the
symmetric MAC — verification succeeds exactly when presented with the same
key. -/
structure SignedToken where
  payload : TokenClaim
  iat : Nat
  exp : Nat
  signedWith : String
  deriving Repr, DecidableEq

/-- Result of `jwt.verify`: the decoded payload or a library error. -/
inductive JwtResult where
  | ok (claim : TokenClaim)
  | err (e : JsError)
  deriving Repr, DecidableEq

/-- Call `jwt.sign(payload, key, \x7bexpiresIn: ttl\x7d)` at clock time `now`. -/
def jwtSign (payload : TokenClaim) (key : String) (now ttl : Nat) : SignedToken :=
  { payload := payload, iat := now, exp := now + ttl, signedWith := key }

/-- Call `jwt.verify(token, key)` at clock time `now`: wrong key →
`JsonWebTokenError` (invalid signature); `now ≥ exp` → `TokenExpiredError`;
otherwise the payload.  Neither library error carries a `status` field. -/
def jwtVerify (tok : SignedToken) (key : String) (now : Nat) : JwtResult :=
  if tok.signedWith ≠ key then
    .err { name := "JsonWebTokenError", message := "invalid signature",
           status := none, code := none }
  else if tok.exp ≤ now then
    .err { name := "TokenExpiredError", message := "jwt expired",
           status := none, code := none }
  else
    .ok tok.payload

/-- Method `JWTLib._sendToken(account, res)`: builds the payload
`{id: account.id, first_name: account.first_name}`, signs it with the
configured key and TTL, sets the cookie and returns the 200 response.  We
return the token together with the observable response. -/
def JWTLib_sendToken (account : Account) (key : String) (now ttl : Nat) :
    SignedToken × HttpResponse :=
  (jwtSign ⟨account.id, account.first_name⟩ key now ttl, ⟨200, true, ""⟩)

/-- A parsed cookie value as produced by `cookie-parser` on
`req.cookies.access_token`: plain cookies are strings, but `j:`-prefixed JSON
cookies decode to arbitrary JSON values (number, boolean, null, object). -/
inductive CookieValue where
  | vstr (s : String)
  | vnum (n : Int)
  | vbool (b : Bool)
  | vnull
  | vobj
  deriving Repr, DecidableEq

/-- JavaScript truthiness of `req.cookies.access_token` (`none` = the cookie is
absent, i.e. the value is `undefined`). -/
def jsTruthy : Option CookieValue → Bool
  | none => false
  | some (.vstr s) => !(s = "" : Bool)
  | some (.vnum n) => !(n = 0 : Bool)
  | some (.vbool b) => b
  | some .vnull => false
  | some .vobj => true

/-- Check `typeof token` being string. -/
def isStringValue : Option CookieValue → Bool
  | some (.vstr _) => true
  | _ => false

/-- Result of the access guard: an error forwarded to `next`, or the identity
claim attached to `req.account`.  No other data is attached and the guard
touches no store. -/
inductive GuardOutcome where
  | denied (err : JsError)
  | granted (id first_name : String)
  deriving Repr, DecidableEq

/-- Middleware `hasAccess`: read `req.cookies.access_token`; `!token` (absent or any falsy
value) → forward `CustomError(…, 401)`; `typeof token !== 'string'` → forward
`CustomError("Invalid token format.", 400)`; otherwise `jwt.verify` the string
(`verify` abstracts `jwt.verify(token, JWT_SECRET_KEY, cb)`), forwarding its
error or attaching `{id, first_name}` from the decoded payload. -/
def hasAccess (cookie : Option CookieValue) (verify : String → JwtResult) :
    GuardOutcome :=
  if ¬ jsTruthy cookie then
    .denied (CustomError "Please provide a token or authenticate." 401)
  else
    match cookie with
    | some (.vstr s) =>
      match verify s with
      | .err e => .denied e
      | .ok claim => .granted claim.id claim.first_name
    | _ => .denied (CustomError "Invalid token format." 400)

/- ## Helper lemmas about the store primitives -/

theorem mem_addToSet {x y : String} {l : List String} :
    y ∈ addToSet x l ↔ y = x ∨ y ∈ l := by
  unfold addToSet
  split
  · constructor
    · exact Or.inr
    · rintro (rfl | h)
      · assumption
      · assumption
  · simp [List.mem_append, or_comm]

theorem addToSet_idem (x : String) (l : List String) :
    addToSet x (addToSet x l) = addToSet x l := by
  have h : x ∈ addToSet x l := mem_addToSet.mpr (Or.inl rfl)
  show (if x ∈ addToSet x l then addToSet x l else addToSet x l ++ [x]) = addToSet x l
  rw [if_pos h]

theorem mem_pull {x y : String} {l : List String} :
    y ∈ pull x l ↔ y ∈ l ∧ y ≠ x := by
  simp [pull, List.mem_filter]

theorem pull_eq_of_not_mem {x : String} {l : List String} (h : x ∉ l) :
    pull x l = l := by
  unfold pull
  apply List.filter_eq_self.mpr
  intro a ha
  simp only [decide_eq_true_eq]
  intro hax
  exact h (hax ▸ ha)

theorem findByIdAndUpdate_self (db : Store) (i : String) (f : Account → Account) :
    findByIdAndUpdate db i f i = (db i).map f := by
  simp [findByIdAndUpdate]

theorem findByIdAndUpdate_ne (db : Store) (i : String) (f : Account → Account)
    (x : String) (h : x ≠ i) : findByIdAndUpdate db i f x = db x := by
  simp [findByIdAndUpdate, h]

/- ## Concrete sample data used by witnesses and counterexamples -/

/-- A sample account document with no subscription edges. -/
def accW : Account :=
  ⟨"A", "Ana", " ", "ana", "ana@x.com", "hashedpw", "user", "profile_image.jpg",
   false, false, [], []⟩

/-- A second sample account document with no subscription edges. -/
def accW2 : Account :=
  ⟨"B", "Bob", " ", "bob", "bob@x.com", "hashedpw2", "user", "profile_image.jpg",
   false, false, [], []⟩

/-- A store holding only account `"A"`. -/
def dbOnlyA : Store := fun x => if x = "A" then some accW else none

/-- A store holding accounts `"A"` and `"B"`, with no subscription edges. -/
def dbAB : Store :=
  fun x => if x = "A" then some accW else if x = "B" then some accW2 else none

/- ## C4: token round-trip -/

/-- C4: for every identity claim (taken from an account's `id` and
`first_name`) and every signing key, the token issued by `JWTLib._sendToken`
and immediately verified with the same key at the same clock time yields back
the original `id` and `first_name`, provided the configured TTL is positive. -/
theorem token_roundtrip (account : Account) (key : String) (now ttl : Nat)
    (h : 0 < ttl) :
    jwtVerify ((JWTLib_sendToken account key now ttl).1) key now =
      JwtResult.ok ⟨account.id, account.first_name⟩ := by
  simp only [JWTLib_sendToken, jwtSign, jwtVerify]
  have h1 : ¬ (key ≠ key) := fun hc => hc rfl
  rw [if_neg h1, if_neg (by omega : ¬ (now + ttl ≤ now))]

/-- Witness for C4 at a concrete account, key, time and TTL. -/
theorem token_roundtrip_witness :
    0 < 36000000 ∧
    jwtVerify ((JWTLib_sendToken accW "secret" 1000 36000000).1) "secret" 1000 =
      JwtResult.ok ⟨accW.id, accW.first_name⟩ :=
  ⟨by decide, token_roundtrip accW "secret" 1000 36000000 (by decide)⟩

/- ## C6: self-subscription is rejected and mutates nothing -/

/-- C6: for every account id `A` and every store, `subscribe(A,A)` and
`unsubscribe(A,A)` leave the store unchanged and produce (through the terminal
responder) an HTTP 400 client error with `success: false` and the
self-subscription message. -/
theorem self_subscription_rejected (A : String) (db : Store) :
    (subscribeAccount A A db).1 = db ∧
    finalResponse (subscribeAccount A A db).2 =
      ⟨400, false, "You cannot subscribe to yourself."⟩ ∧
    (unsubscribeAccount A A db).1 = db ∧
    finalResponse (unsubscribeAccount A A db).2 =
      ⟨400, false, "You cannot unsubscribe to yourself."⟩ := by
  have h : ¬ (A ≠ A) := fun hc => hc rfl
  refine ⟨?_, ?_, ?_, ?_⟩ <;>
    simp [subscribeAccount, unsubscribeAccount, h, finalResponse,
      customErrorHandler, CustomError, statusOr]

/-- A valid ObjectId string is non-empty (so the falsy-id check cannot fire). -/
theorem isValidObjectId_ne_empty {s : String} (h : isValidObjectId s = true) :
    s ≠ "" := by
  intro he
  subst he
  exact absurd h (by decide)

/- ## More concrete sample data -/

/-- A 24-character hexadecimal string: a valid MongoDB ObjectId. -/
def cid24 : String := "0123456789abcdef01234567"

/-- A sample video owned by account `"X"`. -/
def vidW : Video := ⟨cid24, "X", "title", "desc", "img", "vid", 0, [], [], [], false⟩

/-- A video store holding only `vidW` under id `cid24`. -/
def vdbW : VideoStore := fun x => if x = cid24 then some vidW else none

/-- A sample comment owned by account `"X"`. -/
def comW : Comment := ⟨cid24, "X", cid24, "nice video", false⟩

/-- A comment store holding only `comW` under id `cid24`. -/
def cdbW : CommentStore := fun x => if x = cid24 then some comW else none

/-- An empty comment store. -/
def emptyCommentStore : CommentStore := fun _ => none

/-- A video update body supplying no fields. -/
def vbodyW : VideoUpdateBody := ⟨none, none, none, none, none, none, none, none, none⟩

/-- An account update body supplying no fields. -/
def abodyW : AccountUpdateBody := ⟨none, none, none, none, none, none, none, none, none⟩

/- ## C2: non-owner mutations are refused and leave the resource untouched -/

/-- C2: a video update or delete authenticated as an actor different from the
video's stored `account_id` forwards a 400 `CustomError` (HTTP 400,
`success: false` through the terminal responder) and leaves the video store —
hence every stored field of the video — unchanged; comment deletion by a
non-owner likewise responds 400 `success: false` and leaves the comment store
unchanged. -/
theorem nonowner_mutation_refused (auth vid : String) (body : VideoUpdateBody)
    (db : VideoStore) (v : Video)
    (hvalid : isValidObjectId vid = true)
    (hfound : db vid = some v)
    (hne : auth ≠ v.account_id) :
    (updateSingleVideo auth vid body db).1 = db ∧
    finalResponse (updateSingleVideo auth vid body db).2 =
      ⟨400, false, "You can update only your account"⟩ ∧
    (deleteSingleVideo auth vid db).1 = db ∧
    finalResponse (deleteSingleVideo auth vid db).2 =
      ⟨400, false, "You can delete only your video"⟩ ∧
    (∀ (cdb : CommentStore) (cid : String) (c : Comment),
      isValidObjectId cid = true → cdb cid = some c → c.account_id ≠ auth →
      (deleteComment auth cid cdb).1 = cdb ∧
      finalResponse (deleteComment auth cid cdb).2 =
        ⟨400, false, "You cannot delete this comment."⟩) := by
  have hnz := isValidObjectId_ne_empty hvalid
  refine ⟨?_, ?_, ?_, ?_, ?_⟩
  · simp [updateSingleVideo, hnz, hvalid, hfound, hne]
  · simp [updateSingleVideo, hnz, hvalid, hfound, hne, finalResponse,
      customErrorHandler, CustomError, statusOr]
  · simp [deleteSingleVideo, hnz, hvalid, hfound, hne]
  · simp [deleteSingleVideo, hnz, hvalid, hfound, hne, finalResponse,
      customErrorHandler, CustomError, statusOr]
  · intro cdb cid c hv hf hnec
    have hcz := isValidObjectId_ne_empty hv
    constructor
    · simp [deleteComment, hcz, hv, hf, hnec]
    · simp [deleteComment, hcz, hv, hf, hnec, finalResponse]

/-- Witness for C2: a concrete video and comment owned by `"X"`, mutated by
`"Y"`. -/
theorem nonowner_mutation_refused_witness :
    isValidObjectId cid24 = true ∧ vdbW cid24 = some vidW ∧ "Y" ≠ vidW.account_id ∧
    ((updateSingleVideo "Y" cid24 vbodyW vdbW).1 = vdbW ∧
     finalResponse (updateSingleVideo "Y" cid24 vbodyW vdbW).2 =
       ⟨400, false, "You can update only your account"⟩ ∧
     (deleteSingleVideo "Y" cid24 vdbW).1 = vdbW ∧
     finalResponse (deleteSingleVideo "Y" cid24 vdbW).2 =
       ⟨400, false, "You can delete only your video"⟩ ∧
     (∀ (cdb : CommentStore) (cid : String) (c : Comment),
       isValidObjectId cid = true → cdb cid = some c → c.account_id ≠ "Y" →
       (deleteComment "Y" cid cdb).1 = cdb ∧
       finalResponse (deleteComment "Y" cid cdb).2 =
         ⟨400, false, "You cannot delete this comment."⟩)) :=
  ⟨by decide, by decide, by decide,
   nonowner_mutation_refused "Y" cid24 vbodyW vdbW vidW (by decide) (by decide) (by decide)⟩

/- ## C5 (corrected): missing resource handling -/

/-- Counterexample for C5: deleting a comment whose (well-formed) id is not in
the store does **not** fail — the handler directly responds HTTP 200 with
`success: true` and the message "Comment couldn't be find.", not a distinct
not-found failure. -/
theorem comment_missing_is_success_response :
    (deleteComment "Y" cid24 emptyCommentStore).2 =
      Outcome.respond 200 true "Comment couldn't be find." ∧
    finalResponse (deleteComment "Y" cid24 emptyCommentStore).2 =
      ⟨200, true, "Comment couldn't be find."⟩ := by
  decide

/-- C5 (amended): for video update and video delete, a well-formed id absent
from the store forwards a distinct 404 not-found `CustomError`, checked before
any ownership comparison (the outcome does not depend on the actor); for
comment deletion the absent-id check also happens before ownership, but it
directly responds 200 `success: true` rather than failing. -/
theorem missing_resource_before_ownership (auth vid : String)
    (body : VideoUpdateBody) (db : VideoStore)
    (hvalid : isValidObjectId vid = true)
    (hmiss : db vid = none) :
    (updateSingleVideo auth vid body db).2 =
      .forward (CustomError "The video you are looking for could not be found." 404) ∧
    (deleteSingleVideo auth vid db).2 =
      .forward (CustomError "The video you are looking for could not be found." 404) ∧
    finalResponse (updateSingleVideo auth vid body db).2 =
      ⟨404, false, "The video you are looking for could not be found."⟩ ∧
    (∀ (cdb : CommentStore) (cid : String), isValidObjectId cid = true →
      cdb cid = none →
      (deleteComment auth cid cdb).2 = .respond 200 true "Comment couldn't be find.") := by
  have hnz := isValidObjectId_ne_empty hvalid
  refine ⟨?_, ?_, ?_, ?_⟩
  · simp [updateSingleVideo, hnz, hvalid, hmiss]
  · simp [deleteSingleVideo, hnz, hvalid, hmiss]
  · simp [updateSingleVideo, hnz, hvalid, hmiss, finalResponse,
      customErrorHandler, CustomError, statusOr]
  · intro cdb cid hv hm
    simp [deleteComment, isValidObjectId_ne_empty hv, hv, hm]

/-- Witness for C5 (amended) at a concrete empty video store. -/
theorem missing_resource_before_ownership_witness :
    isValidObjectId cid24 = true ∧ (fun _ => none : VideoStore) cid24 = none ∧
    ((updateSingleVideo "Y" cid24 vbodyW (fun _ => none)).2 =
      .forward (CustomError "The video you are looking for could not be found." 404) ∧
     (deleteSingleVideo "Y" cid24 (fun _ => none)).2 =
      .forward (CustomError "The video you are looking for could not be found." 404) ∧
     finalResponse (updateSingleVideo "Y" cid24 vbodyW (fun _ => none)).2 =
       ⟨404, false, "The video you are looking for could not be found."⟩ ∧
     (∀ (cdb : CommentStore) (cid : String), isValidObjectId cid = true →
       cdb cid = none →
       (deleteComment "Y" cid cdb).2 = .respond 200 true "Comment couldn't be find.")) :=
  ⟨by decide, rfl,
   missing_resource_before_ownership "Y" cid24 vbodyW (fun _ => none) (by decide) rfl⟩

/- ## C9: ownership-mismatch status codes (500 for account, 400 for video/comment) -/

/-- C9: an account update authenticated as a different actor than the target
fails and, through the terminal responder, yields HTTP **500** with
`{success: false, message: …}` and an unchanged store, while the analogous
ownership mismatches on video update and comment deletion yield HTTP **400**
with the same body shape. -/
theorem ownership_mismatch_status_codes (auth target : String)
    (body : AccountUpdateBody) (db : Store)
    (hnz : target ≠ "") (hne : auth ≠ target) :
    (updateAccountInformations auth target body db).1 = db ∧
    finalResponse (updateAccountInformations auth target body db).2 =
      ⟨500, false, "You cannot update this channel"⟩ ∧
    (∀ (vdb : VideoStore) (vid : String) (v : Video) (vb : VideoUpdateBody),
      isValidObjectId vid = true → vdb vid = some v → auth ≠ v.account_id →
      finalResponse (updateSingleVideo auth vid vb vdb).2 =
        ⟨400, false, "You can update only your account"⟩) ∧
    (∀ (cdb : CommentStore) (cid : String) (c : Comment),
      isValidObjectId cid = true → cdb cid = some c → c.account_id ≠ auth →
      finalResponse (deleteComment auth cid cdb).2 =
        ⟨400, false, "You cannot delete this comment."⟩) := by
  refine ⟨?_, ?_, ?_, ?_⟩
  · simp [updateAccountInformations, hnz, hne]
  · simp [updateAccountInformations, hnz, hne, finalResponse,
      customErrorHandler, CustomError, statusOr]
  · intro vdb vid v vb hv hf hnev
    simp [updateSingleVideo, isValidObjectId_ne_empty hv, hv, hf, hnev,
      finalResponse, customErrorHandler, CustomError, statusOr]
  · intro cdb cid c hv hf hnec
    simp [deleteComment, isValidObjectId_ne_empty hv, hv, hf, hnec, finalResponse]

/-- Witness for C9: actor `"Y"` updating account `"A"`, video and comment owned
by `"X"`. -/
theorem ownership_mismatch_status_codes_witness :
    ("A" : String) ≠ "" ∧ ("Y" : String) ≠ "A" ∧
    ((updateAccountInformations "Y" "A" abodyW dbOnlyA).1 = dbOnlyA ∧
     finalResponse (updateAccountInformations "Y" "A" abodyW dbOnlyA).2 =
       ⟨500, false, "You cannot update this channel"⟩ ∧
     (∀ (vdb : VideoStore) (vid : String) (v : Video) (vb : VideoUpdateBody),
       isValidObjectId vid = true → vdb vid = some v → "Y" ≠ v.account_id →
       finalResponse (updateSingleVideo "Y" vid vb vdb).2 =
         ⟨400, false, "You can update only your account"⟩) ∧
     (∀ (cdb : CommentStore) (cid : String) (c : Comment),
       isValidObjectId cid = true → cdb cid = some c → c.account_id ≠ "Y" →
       finalResponse (deleteComment "Y" cid cdb).2 =
         ⟨400, false, "You cannot delete this comment."⟩)) :=
  ⟨by decide, by decide,
   ownership_mismatch_status_codes "Y" "A" abodyW dbOnlyA (by decide) (by decide)⟩

/- ## C10: account self-update writes every supplied body field verbatim -/

/-- C10: when the authenticated actor updates its own (existing) account, the
whole request body is written through a single `$set` with no field whitelist:
the stored document becomes `applyAccountSet body acc`, and in particular any
supplied `password` (not re-hashed), `role`, `blocked` and `is_email_verified`
values are stored verbatim; the handler responds 200 `success: true`. -/
theorem account_update_no_whitelist (auth : String) (body : AccountUpdateBody)
    (db : Store) (acc : Account)
    (hnz : auth ≠ "") (hfound : db auth = some acc) :
    (updateAccountInformations auth auth body db).1 auth =
      some (applyAccountSet body acc) ∧
    finalResponse (updateAccountInformations auth auth body db).2 = ⟨200, true, ""⟩ ∧
    (∀ p, body.password = some p → (applyAccountSet body acc).password = p) ∧
    (∀ r, body.role = some r → (applyAccountSet body acc).role = r) ∧
    (∀ b, body.blocked = some b → (applyAccountSet body acc).blocked = b) ∧
    (∀ b, body.is_email_verified = some b →
      (applyAccountSet body acc).is_email_verified = b) := by
  have hself : ¬ (auth ≠ auth) := fun hc => hc rfl
  refine ⟨?_, ?_, ?_, ?_, ?_, ?_⟩
  · simp [updateAccountInformations, hnz, hself, findByIdAndUpdate, hfound]
  · simp [updateAccountInformations, hnz, hself, finalResponse]
  · intro p hp; simp [applyAccountSet, hp]
  · intro r hr; simp [applyAccountSet, hr]
  · intro b hb; simp [applyAccountSet, hb]
  · intro b hb; simp [applyAccountSet, hb]

/-- An account update body that sets privileged fields and a raw password. -/
def abodyPriv : AccountUpdateBody :=
  ⟨none, none, none, none, some "rawpw", some "admin", none, some true, some true⟩

/-- Witness for C10: account `"A"` updates itself with a body that sets
`password`, `role`, `blocked` and `is_email_verified`. -/
theorem account_update_no_whitelist_witness :
    ("A" : String) ≠ "" ∧ dbOnlyA "A" = some accW ∧
    ((updateAccountInformations "A" "A" abodyPriv dbOnlyA).1 "A" =
      some (applyAccountSet abodyPriv accW) ∧
     finalResponse (updateAccountInformations "A" "A" abodyPriv dbOnlyA).2 =
       ⟨200, true, ""⟩ ∧
     (∀ p, abodyPriv.password = some p → (applyAccountSet abodyPriv accW).password = p) ∧
     (∀ r, abodyPriv.role = some r → (applyAccountSet abodyPriv accW).role = r) ∧
     (∀ b, abodyPriv.blocked = some b → (applyAccountSet abodyPriv accW).blocked = b) ∧
     (∀ b, abodyPriv.is_email_verified = some b →
       (applyAccountSet abodyPriv accW).is_email_verified = b)) :=
  ⟨by decide, by decide,
   account_update_no_whitelist "A" abodyPriv dbOnlyA accW (by decide) (by decide)⟩

/- ## C3 (corrected): access guard failure surface -/

/-- A fixed verifier used only to instantiate the guard in closed statements
(the cookie branches under test never reach it). -/
def verifyStub : String → JwtResult :=
  fun _ => JwtResult.err { name := "JsonWebTokenError", message := "invalid signature",
                            status := none, code := none }

/-- Counterexample for C3: a cookie that is **present** but holds the non-string
JSON value `false` (cookie-parser decodes `j:`-prefixed JSON cookies) is falsy,
so the guard's `!token` check fires first and it fails with the
`MissingCredential`-style 401 error — not the `MalformedCredential` 400 error
the claim requires for every present non-string value. -/
theorem guard_present_falsy_nonstring_401 :
    isStringValue (some (CookieValue.vbool false)) = false ∧
    hasAccess (some (CookieValue.vbool false)) verifyStub =
      .denied (CustomError "Please provide a token or authenticate." 401) ∧
    hasAccess (some (CookieValue.vbool false)) verifyStub ≠
      .denied (CustomError "Invalid token format." 400) := by
  decide

/-- C3 (amended): an absent cookie fails with the 401 `CustomError`
("Please provide a token or authenticate."); a present value that is **truthy**
but not a string fails with the 400 `CustomError` ("Invalid token format.");
a present **falsy** value (JSON `false`, `0`, `null`, or the empty string)
also fails with the 401 error.  In every failure case the outcome is `denied`,
so no identity claim is attached; the guard takes no store argument, so no
persistence operation is performed. -/
theorem guard_failure_surface (verify : String → JwtResult) :
    hasAccess none verify =
      .denied (CustomError "Please provide a token or authenticate." 401) ∧
    (∀ v : CookieValue, jsTruthy (some v) = true → isStringValue (some v) = false →
      hasAccess (some v) verify = .denied (CustomError "Invalid token format." 400)) ∧
    (∀ v : CookieValue, jsTruthy (some v) = false →
      hasAccess (some v) verify =
        .denied (CustomError "Please provide a token or authenticate." 401)) := by
  refine ⟨?_, ?_, ?_⟩
  · simp [hasAccess, jsTruthy]
  · intro v h1 h2
    cases v with
    | vstr s => exact absurd h2 (by simp [isStringValue])
    | vnum n => simp [hasAccess, h1]
    | vbool b => simp [hasAccess, h1]
    | vnull => simp [hasAccess, h1]
    | vobj => simp [hasAccess, h1]
  · intro v h
    simp [hasAccess, h]

/-- Witness for C3 (amended): absent cookie, the truthy non-string JSON value
`5`, and the falsy value `null`, against the stub verifier. -/
theorem guard_failure_surface_witness :
    jsTruthy (some (CookieValue.vnum 5)) = true ∧
    isStringValue (some (CookieValue.vnum 5)) = false ∧
    jsTruthy (some CookieValue.vnull) = false ∧
    (hasAccess none verifyStub =
      .denied (CustomError "Please provide a token or authenticate." 401)) ∧
    (hasAccess (some (CookieValue.vnum 5)) verifyStub =
      .denied (CustomError "Invalid token format." 400)) ∧
    (hasAccess (some CookieValue.vnull) verifyStub =
      .denied (CustomError "Please provide a token or authenticate." 401)) :=
  ⟨by decide, by decide, by decide,
   (guard_failure_surface verifyStub).1,
   (guard_failure_surface verifyStub).2.1 (CookieValue.vnum 5) (by decide) (by decide),
   (guard_failure_surface verifyStub).2.2 CookieValue.vnull (by decide)⟩

/- ## C8 (corrected): error propagation to the terminal responder -/

/-- Counterexample for C8: `deleteComment`'s ownership-mismatch path writes the
400 error response **itself** (`res.status(400).json(…)`) instead of
forwarding it to the terminal responder. -/
theorem comment_ownership_error_not_forwarded :
    directErrorResponse (deleteComment "Y" cid24 cdbW).2 = true ∧
    (deleteComment "Y" cid24 cdbW).2 =
      Outcome.respond 400 false "You cannot delete this comment." := by
  decide

/-- C8 (amended): every error outcome of the video, account and subscription
handlers is forwarded to the terminal responder (none of them ever writes an
error response directly); `deleteComment` is the exception — its ownership
mismatch is a direct 400 response (and its missing-comment path a direct 200
success).  The terminal responder `customErrorHandler` emits exactly one
response: a `CustomError` with non-zero status keeps its documented status and
message with `success: false`, and an error carrying no status (and none of
the specially rewritten names/codes) falls back to 500. -/
theorem error_propagation :
    (∀ (auth vid : String) (body : VideoUpdateBody) (db : VideoStore),
      directErrorResponse (updateSingleVideo auth vid body db).2 = false) ∧
    (∀ (auth vid : String) (db : VideoStore),
      directErrorResponse (deleteSingleVideo auth vid db).2 = false) ∧
    (∀ (a b : String) (db : Store),
      directErrorResponse (subscribeAccount a b db).2 = false) ∧
    (∀ (a b : String) (db : Store),
      directErrorResponse (unsubscribeAccount a b db).2 = false) ∧
    (∀ (a d : String) (db : Store),
      directErrorResponse (deleteSingleAccount a d db).2 = false) ∧
    (∀ (a u : String) (body : AccountUpdateBody) (db : Store),
      directErrorResponse (updateAccountInformations a u body db).2 = false) ∧
    (∀ (auth cid : String) (cdb : CommentStore) (c : Comment),
      isValidObjectId cid = true → cdb cid = some c → c.account_id ≠ auth →
      (deleteComment auth cid cdb).2 =
        Outcome.respond 400 false "You cannot delete this comment.") ∧
    (∀ (msg : String) (st : Nat), st ≠ 0 →
      customErrorHandler (CustomError msg st) = ⟨st, false, msg⟩) ∧
    (∀ e : JsError, e.name ≠ "SyntaxError" → e.name ≠ "ValidationError" →
      e.code ≠ some 11000 → e.status = none →
      customErrorHandler e = ⟨500, false, e.message⟩) := by
  refine ⟨?_, ?_, ?_, ?_, ?_, ?_, ?_, ?_, ?_⟩
  · intro auth vid body db
    unfold updateSingleVideo
    repeat' split
    all_goals rfl
  · intro auth vid db
    unfold deleteSingleVideo
    repeat' split
    all_goals rfl
  · intro a b db
    unfold subscribeAccount
    split <;> rfl
  · intro a b db
    unfold unsubscribeAccount
    split <;> rfl
  · intro a d db
    unfold deleteSingleAccount
    repeat' split
    all_goals rfl
  · intro a u body db
    unfold updateAccountInformations
    repeat' split
    all_goals rfl
  · intro auth cid cdb c hv hf hnec
    simp [deleteComment, isValidObjectId_ne_empty hv, hv, hf, hnec]
  · intro msg st hst
    simp [customErrorHandler, CustomError, statusOr, hst]
  · intro e h1 h2 h3 h4
    simp [customErrorHandler, h1, h2, h3, h4, statusOr]

/-- Witness for C8 (amended) at concrete handlers, a concrete `CustomError`
and a concrete status-less `jsonwebtoken` error. -/
theorem error_propagation_witness :
    (directErrorResponse (updateSingleVideo "Y" cid24 vbodyW vdbW).2 = false) ∧
    (directErrorResponse (deleteSingleAccount "Y" "A" dbOnlyA).2 = false) ∧
    ((deleteComment "Y" cid24 cdbW).2 =
      Outcome.respond 400 false "You cannot delete this comment.") ∧
    (customErrorHandler (CustomError "boom" 404) = ⟨404, false, "boom"⟩) ∧
    (customErrorHandler
        { name := "TokenExpiredError", message := "jwt expired",
          status := none, code := none } = ⟨500, false, "jwt expired"⟩) :=
  ⟨error_propagation.1 "Y" cid24 vbodyW vdbW,
   error_propagation.2.2.2.2.1 "Y" "A" dbOnlyA,
   error_propagation.2.2.2.2.2.2.1 "Y" cid24 cdbW comW (by decide) (by decide) (by decide),
   error_propagation.2.2.2.2.2.2.2.1 "boom" 404 (by decide),
   error_propagation.2.2.2.2.2.2.2.2 _ (by decide) (by decide) (by decide) rfl⟩

/- ## State-shape lemmas for the subscription handlers -/

/-- The store after a non-self `subscribeAccount`, described pointwise. -/
theorem subscribeAccount_state (A B : String) (db : Store) (hAB : A ≠ B) :
    (subscribeAccount A B db).1 = fun x =>
      if x = A then (db x).map (addSubscribedUser B)
      else if x = B then (db x).map (addSubscriber A)
      else db x := by
  have hBA : B ≠ A := Ne.symm hAB
  funext x
  simp only [subscribeAccount, if_pos hAB, findByIdAndUpdate]
  by_cases hxA : x = A
  · subst hxA
    simp [hAB]
  · by_cases hxB : x = B
    · subst hxB
      simp [hBA]
    · simp [hxA, hxB]

/-- The store after a non-self `unsubscribeAccount`, described pointwise. -/
theorem unsubscribeAccount_state (A B : String) (db : Store) (hAB : A ≠ B) :
    (unsubscribeAccount A B db).1 = fun x =>
      if x = A then (db x).map (pullSubscribedUser B)
      else if x = B then (db x).map (pullSubscriber A)
      else db x := by
  have hBA : B ≠ A := Ne.symm hAB
  funext x
  simp only [unsubscribeAccount, if_pos hAB, findByIdAndUpdate]
  by_cases hxA : x = A
  · subst hxA
    simp [hAB]
  · by_cases hxB : x = B
    · subst hxB
      simp [hBA]
    · simp [hxA, hxB]

/-- Applying `$addToSet` on `subscribedUsers` twice is idempotent. -/
theorem addSubscribedUser_idem (b : String) (a : Account) :
    addSubscribedUser b (addSubscribedUser b a) = addSubscribedUser b a := by
  simp [addSubscribedUser, addToSet_idem]

/-- Applying `$addToSet` on `subscribers` twice is idempotent. -/
theorem addSubscriber_idem (b : String) (a : Account) :
    addSubscriber b (addSubscriber b a) = addSubscriber b a := by
  simp [addSubscriber, addToSet_idem]

/- ## C7: subscribe is idempotent; unsubscribing an absent id is a no-op -/

/-- C7: for distinct ids `A ≠ B`, running `subscribe(A,B)` a second time leaves
the store exactly as after the first call and still succeeds with 200 (no
error, no duplicate entry — `$addToSet` set semantics); and `unsubscribe(A,B)`
when `B` is not in `A.subscribedUsers` and `A` not in `B.subscribers` succeeds
with 200 and leaves the store unchanged. -/
theorem subscribe_idempotent (A B : String) (db : Store) (hAB : A ≠ B) :
    (subscribeAccount A B (subscribeAccount A B db).1).1 =
      (subscribeAccount A B db).1 ∧
    (subscribeAccount A B (subscribeAccount A B db).1).2 =
      Outcome.respond 200 true ("You have been subscribed to " ++ B ++ ".") ∧
    (inSubscribedTo db A B = false → inSubscribers db B A = false →
      (unsubscribeAccount A B db).1 = db ∧
      (unsubscribeAccount A B db).2 =
        Outcome.respond 200 true ("You have been unsubscribed from " ++ B ++ ".")) := by
  have hBA : B ≠ A := Ne.symm hAB
  refine ⟨?_, ?_, ?_⟩
  · rw [subscribeAccount_state A B _ hAB, subscribeAccount_state A B db hAB]
    funext x
    by_cases hxA : x = A
    · simp only [hxA]
      cases db A <;> simp [hAB, addSubscribedUser_idem]
    · by_cases hxB : x = B
      · simp only [hxB]
        cases db B <;> simp [hBA, addSubscriber_idem]
      · simp [hxA, hxB]
  · simp [subscribeAccount, hAB]
  · intro h1 h2
    constructor
    · rw [unsubscribeAccount_state A B db hAB]
      funext x
      by_cases hxA : x = A
      · simp only [hxA, if_pos rfl]
        cases hA : db A with
        | none => simp
        | some a =>
          have hmem : B ∉ a.subscribedUsers := by
            have h1' := h1
            unfold inSubscribedTo at h1'
            rw [hA] at h1'
            simpa using h1'
          simp [pullSubscribedUser, pull_eq_of_not_mem hmem]
      · by_cases hxB : x = B
        · simp only [hxB, if_neg hBA, if_pos rfl]
          cases hB : db B with
          | none => simp
          | some b =>
            have hmem : A ∉ b.subscribers := by
              have h2' := h2
              unfold inSubscribers at h2'
              rw [hB] at h2'
              simpa using h2'
            simp [pullSubscriber, pull_eq_of_not_mem hmem]
        · simp [hxA, hxB]
    · simp [unsubscribeAccount, hAB]

/-- Witness for C7: the two-account store `dbAB` with no edges. -/
theorem subscribe_idempotent_witness :
    ("A" : String) ≠ "B" ∧
    inSubscribedTo dbAB "A" "B" = false ∧ inSubscribers dbAB "B" "A" = false ∧
    (subscribeAccount "A" "B" (subscribeAccount "A" "B" dbAB).1).1 =
      (subscribeAccount "A" "B" dbAB).1 ∧
    (unsubscribeAccount "A" "B" dbAB).1 = dbAB :=
  ⟨by decide, by decide, by decide,
   (subscribe_idempotent "A" "B" dbAB (by decide)).1,
   ((subscribe_idempotent "A" "B" dbAB (by decide)).2.2 (by decide) (by decide)).1⟩

/- ## C1 (corrected): the subscription symmetry invariant -/

/-- Counterexample for C1: starting from a symmetric store containing only
account `"A"`, `subscribe("A","B")` with `"B"` absent performs the one-sided
write: afterwards `"B" ∈ A.subscribedUsers` but `"A" ∉ B.subscribers` (there
is no account `"B"`), so the biconditional is **not** preserved when one of
the referenced accounts does not exist. -/
theorem subscribe_missing_account_breaks_symmetry :
    symmetricStore dbOnlyA ∧
    inSubscribedTo (subscribeAccount "A" "B" dbOnlyA).1 "A" "B" = true ∧
    inSubscribers (subscribeAccount "A" "B" dbOnlyA).1 "B" "A" = false := by
  refine ⟨?_, by decide, by decide⟩
  intro a b
  unfold inSubscribedTo inSubscribers dbOnlyA
  by_cases ha : a = "A" <;> by_cases hb : b = "A" <;> simp [ha, hb, accW]

/-- C1 (amended): from a symmetric store, `subscribe(A,B)` with `A ≠ B`
preserves the biconditional `B ∈ A.subscribedUsers ⟺ A ∈ B.subscribers`
provided **both** referenced accounts exist; `unsubscribe(A,B)` with `A ≠ B`
preserves it unconditionally; and deleting one's own account preserves it
provided the deleted account participates in no subscription edge.
(When one account is missing, subscribe's one-sided write can break the
invariant, and deleting an account with edges leaves dangling one-sided
edges.) -/
theorem subscription_symmetry_preserved (db : Store) (h : symmetricStore db) :
    (∀ A B accA accB, A ≠ B → db A = some accA → db B = some accB →
      symmetricStore (subscribeAccount A B db).1) ∧
    (∀ A B, A ≠ B → symmetricStore (unsubscribeAccount A B db).1) ∧
    (∀ A, A ≠ "" →
      (∀ b, inSubscribedTo db A b = false) →
      (∀ b, inSubscribers db A b = false) →
      symmetricStore (deleteSingleAccount A A db).1) := by
  refine ⟨?_, ?_, ?_⟩
  · -- subscribe, both accounts present
    intro A B accA accB hAB hA hB
    have hBA : B ≠ A := Ne.symm hAB
    have hst := subscribeAccount_state A B db hAB
    have E1 : ∀ y, inSubscribedTo (subscribeAccount A B db).1 A y =
        (decide (y = B) || inSubscribedTo db A y) := by
      intro y
      rw [hst]
      unfold inSubscribedTo
      simp [hA, addSubscribedUser, mem_addToSet]
    have E2 : ∀ x, x ≠ A → ∀ y, inSubscribedTo (subscribeAccount A B db).1 x y =
        inSubscribedTo db x y := by
      intro x hx y
      rw [hst]
      unfold inSubscribedTo
      by_cases hxB : x = B
      · simp [hx, hxB, hB, hBA, addSubscriber]
      · simp [hx, hxB]
    have E3 : ∀ x, inSubscribers (subscribeAccount A B db).1 B x =
        (decide (x = A) || inSubscribers db B x) := by
      intro x
      rw [hst]
      unfold inSubscribers
      simp [hBA, hB, addSubscriber, mem_addToSet]
    have E4 : ∀ y, y ≠ B → ∀ x, inSubscribers (subscribeAccount A B db).1 y x =
        inSubscribers db y x := by
      intro y hy x
      rw [hst]
      unfold inSubscribers
      by_cases hyA : y = A
      · simp [hy, hyA, hA, addSubscribedUser]
      · simp [hy, hyA]
    intro x y
    by_cases hxA : x = A
    · by_cases hyB : y = B
      · rw [hxA, hyB, E1 B, E3 A]
        simp
      · rw [hxA, E1 y, E4 y hyB A]
        simp [hyB, h A y]
    · by_cases hyB : y = B
      · rw [hyB, E2 x hxA B, E3 x]
        simp [hxA, h x B]
      · rw [E2 x hxA y, E4 y hyB x]
        exact h x y
  · -- unsubscribe, unconditional
    intro A B hAB
    have hBA : B ≠ A := Ne.symm hAB
    have hst := unsubscribeAccount_state A B db hAB
    have U1 : ∀ y, inSubscribedTo (unsubscribeAccount A B db).1 A y =
        (inSubscribedTo db A y && !decide (y = B)) := by
      intro y
      rw [hst]
      unfold inSubscribedTo
      cases hA : db A with
      | none => simp [hA]
      | some a => simp [hA, pullSubscribedUser, mem_pull]
    have U2 : ∀ x, x ≠ A → ∀ y, inSubscribedTo (unsubscribeAccount A B db).1 x y =
        inSubscribedTo db x y := by
      intro x hx y
      rw [hst]
      unfold inSubscribedTo
      by_cases hxB : x = B
      · cases hB : db B with
        | none => simp [hx, hxB, hB, hBA]
        | some b => simp [hx, hxB, hB, hBA, pullSubscriber]
      · simp [hx, hxB]
    have U3 : ∀ x, inSubscribers (unsubscribeAccount A B db).1 B x =
        (inSubscribers db B x && !decide (x = A)) := by
      intro x
      rw [hst]
      unfold inSubscribers
      cases hB : db B with
      | none => simp [hBA, hB]
      | some b => simp [hBA, hB, pullSubscriber, mem_pull]
    have U4 : ∀ y, y ≠ B → ∀ x, inSubscribers (unsubscribeAccount A B db).1 y x =
        inSubscribers db y x := by
      intro y hy x
      rw [hst]
      unfold inSubscribers
      by_cases hyA : y = A
      · cases hA : db A with
        | none => simp [hy, hyA, hA]
        | some a => simp [hy, hyA, hA, pullSubscribedUser]
      · simp [hy, hyA]
    intro x y
    by_cases hxA : x = A
    · by_cases hyB : y = B
      · rw [hxA, hyB, U1 B, U3 A]
        simp
      · rw [hxA, U1 y, U4 y hyB A]
        simp [hyB, h A y]
    · by_cases hyB : y = B
      · rw [hyB, U2 x hxA B, U3 x]
        simp [hxA, h x B]
      · rw [U2 x hxA y, U4 y hyB x]
        exact h x y
  · -- self-deletion of an account with no edges
    intro A hAe hno1 hno2
    have hself : ¬ (A ≠ A) := fun hc => hc rfl
    have hst : (deleteSingleAccount A A db).1 = findByIdAndDelete db A := by
      simp [deleteSingleAccount, hAe, hself]
    have D1 : ∀ y, inSubscribedTo (findByIdAndDelete db A) A y = false := by
      intro y
      unfold inSubscribedTo findByIdAndDelete
      simp
    have D2 : ∀ x, x ≠ A → ∀ y, inSubscribedTo (findByIdAndDelete db A) x y =
        inSubscribedTo db x y := by
      intro x hx y
      unfold inSubscribedTo findByIdAndDelete
      simp [hx]
    have D3 : ∀ x, inSubscribers (findByIdAndDelete db A) A x = false := by
      intro x
      unfold inSubscribers findByIdAndDelete
      simp
    have D4 : ∀ y, y ≠ A → ∀ x, inSubscribers (findByIdAndDelete db A) y x =
        inSubscribers db y x := by
      intro y hy x
      unfold inSubscribers findByIdAndDelete
      simp [hy]
    intro x y
    rw [hst]
    by_cases hxA : x = A
    · rw [hxA, D1 y]
      by_cases hyA : y = A
      · rw [hyA, D3 A]
      · rw [D4 y hyA A, ← h A y, hno1 y]
    · by_cases hyA : y = A
      · rw [hyA, D2 x hxA A, D3 x, h x A, hno2 x]
      · rw [D2 x hxA y, D4 y hyA x]
        exact h x y

/-- The two-account store with no edges is symmetric. -/
theorem symmetric_dbAB : symmetricStore dbAB := by
  intro a b
  unfold inSubscribedTo inSubscribers dbAB
  by_cases ha : a = "A" <;> by_cases hb : b = "A" <;>
    by_cases ha2 : a = "B" <;> by_cases hb2 : b = "B" <;>
      simp [ha, hb, ha2, hb2, accW, accW2]

/-- Witness for C1 (amended): the symmetric two-account store `dbAB`, with both
accounts present for subscribe, and account `"A"` edge-free for deletion. -/
theorem subscription_symmetry_preserved_witness :
    ("A" : String) ≠ "B" ∧ dbAB "A" = some accW ∧ dbAB "B" = some accW2 ∧
    ("A" : String) ≠ "" ∧
    symmetricStore (subscribeAccount "A" "B" dbAB).1 ∧
    symmetricStore (unsubscribeAccount "A" "B" dbAB).1 ∧
    symmetricStore (deleteSingleAccount "A" "A" dbAB).1 :=
  ⟨by decide, by decide, by decide, by decide,
   (subscription_symmetry_preserved dbAB symmetric_dbAB).1 "A" "B" accW accW2
     (by decide) (by decide) (by decide),
   (subscription_symmetry_preserved dbAB symmetric_dbAB).2.1 "A" "B" (by decide),
   (subscription_symmetry_preserved dbAB symmetric_dbAB).2.2 "A" (by decide)
     (fun b => by simp [inSubscribedTo, dbAB, accW])
     (fun b => by simp [inSubscribers, dbAB, accW])⟩
